import Mathlib

/-!
Verification development for the cat facial-landmark pain-scoring pipeline.

The geometry, the three pain classifiers (`eyes`, `ears`, `muzzle`), the
error-flag aggregation of `calculate_pain_score`, the NME evaluation of
`evaluate_model` (and its two sibling copies), and the IQR outlier rule of
`analyze_validation_results` are embedded shallowly: numpy float arithmetic
is idealised as real arithmetic, `np.linalg.norm` of a 2-D difference as
the Euclidean norm, `np.degrees (np.arccos c)` as `arccos c * (180 / pi)`,
and `np.percentile` (linear interpolation, the default) over rationals.
-/

namespace Cats

open Classical

/-- A landmark set: 48 two-dimensional points, index-addressable, as in the
shape-(48, 2) numpy arrays of the repository. -/
def LandmarkSet := Fin 48 → ℝ × ℝ

/-- Euclidean norm of a 2-D vector: the embedding of `np.linalg.norm` applied
to a difference of two landmark rows. -/
noncomputable def norm2d (v : ℝ × ℝ) : ℝ :=
  Real.sqrt (v.1 ^ 2 + v.2 ^ 2)

/-- Dot product of two 2-D vectors, the embedding of `np.dot`. -/
noncomputable def dot2d (a b : ℝ × ℝ) : ℝ :=
  a.1 * b.1 + a.2 * b.2

/-- Angle in degrees between two 2-D vectors, as computed in `ears` of
`pain_scores.py`: `np.degrees (np.arccos (np.dot a b / (norm a * norm b)))`.
No clamping of the cosine is applied before the arccosine, exactly as in the
source. -/
noncomputable def angleDeg (a b : ℝ × ℝ) : ℝ :=
  Real.arccos (dot2d a b / (norm2d a * norm2d b)) * (180 / Real.pi)

/-- Embedding of `eyes` from `pain_scores.py` (lines 7-20): per-side
vertical/horizontal eyelid-distance ratios from the fixed index pairs,
then the threshold ladder on the minimum ratio. -/
noncomputable def eyes (landmarks : LandmarkSet) : ℤ :=
  let left_eye_horizontal_distance := norm2d (landmarks 9 - landmarks 8)
  let left_eye_vertical_distance := norm2d (landmarks 10 - landmarks 11)
  let right_eye_horizontal_distance := norm2d (landmarks 5 - landmarks 4)
  let right_eye_vertical_distance := norm2d (landmarks 7 - landmarks 6)
  let r_ratio := right_eye_vertical_distance / right_eye_horizontal_distance
  let l_ratio := left_eye_vertical_distance / left_eye_horizontal_distance
  if min l_ratio r_ratio > 1 then -1
  else if min l_ratio r_ratio > 0.7 then 0
  else if min l_ratio r_ratio ≥ 0.5 then 1
  else 2

/-- Embedding of `ears` from `pain_scores.py` (lines 22-50): two ear angles,
two vertical angles against the ear-base baseline, then the ladder evaluated
in the literal source order. -/
noncomputable def ears (landmarks : LandmarkSet) : ℤ :=
  let r_ear_a := landmarks 25 - landmarks 26
  let r_ear_b := landmarks 27 - landmarks 26
  let r_ear_angle := angleDeg r_ear_a r_ear_b
  let l_ear_a := landmarks 28 - landmarks 27
  let l_ear_b := landmarks 26 - landmarks 27
  let l_ear_angle := angleDeg l_ear_a l_ear_b
  let ear_base_line := landmarks 31 - landmarks 22
  let l_ear_vertical := landmarks 31 - landmarks 30
  let r_ear_vertical := landmarks 22 - landmarks 23
  let l_vert_angle := angleDeg ear_base_line l_ear_vertical
  let r_vert_angle := angleDeg ear_base_line r_ear_vertical
  let min_ear_ang := min l_ear_angle r_ear_angle
  let max_vert_angle := max l_vert_angle r_vert_angle
  if max l_ear_angle r_ear_angle < 115 then -1
  else if min_ear_ang > 145 ∨ max_vert_angle < 70 then 2
  else if (115 ≤ min_ear_ang ∧ min_ear_ang ≤ 125) ∨ max_vert_angle > 75 then 0
  else 1

/-- Embedding of `muzzle` from `pain_scores.py` (lines 52-63): per-side
width/height ratios from the fixed index pairs, then the ladder on the
maximum ratio. -/
noncomputable def muzzle (landmarks : LandmarkSet) : ℤ :=
  let l_muzzle_width := norm2d (landmarks 44 - landmarks 32)
  let r_muzzle_width := norm2d (landmarks 45 - landmarks 35)
  let l_muzzle_height := norm2d (landmarks 42 - landmarks 21)
  let r_muzzle_height := norm2d (landmarks 43 - landmarks 19)
  let l_muzzle_ratio := l_muzzle_width / l_muzzle_height
  let r_muzzle_ratio := r_muzzle_width / r_muzzle_height
  if max l_muzzle_ratio r_muzzle_ratio > 2 then 2
  else if max l_muzzle_ratio r_muzzle_ratio > 1.5 then 1
  else if max l_muzzle_ratio r_muzzle_ratio < 0.8 then -1
  else 0

/-- Left-eye vertical/horizontal eyelid ratio, from the index pairs (10, 11)
and (9, 8) used by `eyes`. -/
noncomputable def l_ratio (L : LandmarkSet) : ℝ :=
  norm2d (L 10 - L 11) / norm2d (L 9 - L 8)

/-- Right-eye vertical/horizontal eyelid ratio, from the index pairs (7, 6)
and (5, 4) used by `eyes`. -/
noncomputable def r_ratio (L : LandmarkSet) : ℝ :=
  norm2d (L 7 - L 6) / norm2d (L 5 - L 4)

/-- The eyes classification ladder exactly as the spec states it: -1 when the
minimum ratio is strictly greater than 1.0, 0 when strictly greater than 0.7,
1 when at least 0.5, and 2 otherwise. -/
noncomputable def eyesLadder (ratio : ℝ) : ℤ :=
  if ratio > 1 then -1
  else if ratio > 0.7 then 0
  else if ratio ≥ 0.5 then 1
  else 2

/-- Left ear angle: the angle at apex landmark 27 between landmarks 28 and 26. -/
noncomputable def l_ear_angle (L : LandmarkSet) : ℝ :=
  angleDeg (L 28 - L 27) (L 26 - L 27)

/-- Right ear angle: the angle at apex landmark 26 between landmarks 25 and 27. -/
noncomputable def r_ear_angle (L : LandmarkSet) : ℝ :=
  angleDeg (L 25 - L 26) (L 27 - L 26)

/-- Left vertical ear angle: between the ear-base baseline (31 minus 22) and
the left vertical vector (31 minus 30). -/
noncomputable def l_vert_angle (L : LandmarkSet) : ℝ :=
  angleDeg (L 31 - L 22) (L 31 - L 30)

/-- Right vertical ear angle: between the ear-base baseline (31 minus 22) and
the right vertical vector (22 minus 23). -/
noncomputable def r_vert_angle (L : LandmarkSet) : ℝ :=
  angleDeg (L 31 - L 22) (L 22 - L 23)

/-- The ears classification ladder exactly as the spec states it, evaluated in
the literal listed order with the first matching branch winning. -/
noncomputable def earsLadder (minEar maxEar maxVert : ℝ) : ℤ :=
  if maxEar < 115 then -1
  else if minEar > 145 ∨ maxVert < 70 then 2
  else if (115 ≤ minEar ∧ minEar ≤ 125) ∨ maxVert > 75 then 0
  else 1

/-- Left muzzle width/height ratio, from the index pairs (44, 32) and (42, 21). -/
noncomputable def l_muzzle_ratio (L : LandmarkSet) : ℝ :=
  norm2d (L 44 - L 32) / norm2d (L 42 - L 21)

/-- Right muzzle width/height ratio, from the index pairs (45, 35) and (43, 19). -/
noncomputable def r_muzzle_ratio (L : LandmarkSet) : ℝ :=
  norm2d (L 45 - L 35) / norm2d (L 43 - L 19)

/-- The muzzle classification ladder exactly as the spec states it: 2 above
2.0, else 1 above 1.5, else -1 below 0.8, else 0. -/
noncomputable def muzzleLadder (ratio : ℝ) : ℤ :=
  if ratio > 2 then 2
  else if ratio > 1.5 then 1
  else if ratio < 0.8 then -1
  else 0

/-- A landmark set whose two eyes both have horizontal eyelid distance 10 and
vertical eyelid distance 7, so both eyelid ratios are exactly 0.7. -/
noncomputable def eyesBoundary07 : LandmarkSet := fun i =>
  if i = 5 ∨ i = 9 then (10, 0) else if i = 7 ∨ i = 10 then (0, 7) else (0, 0)

/-- A landmark set whose two eyes both have horizontal eyelid distance 10 and
vertical eyelid distance 5, so both eyelid ratios are exactly 0.5. -/
noncomputable def eyesBoundary05 : LandmarkSet := fun i =>
  if i = 5 ∨ i = 9 then (10, 0) else if i = 7 ∨ i = 10 then (0, 5) else (0, 0)

/-- The fully degenerate landmark set: all 48 landmarks coincide at the
origin, so every distance, every ratio denominator and every angle vector is
degenerate. -/
noncomputable def degenerateLandmarks : LandmarkSet := fun _ => (0, 0)

/-- Error-flag aggregation of `calculate_pain_score` in `pain_scores.py`
(lines 112-113): the generic error marker is printed exactly when
`eye_score == -1 or ears_score == -1 or muzzle_score == -1`. -/
def pain_error_flag (eye_score ears_score muzzle_score : ℤ) : Bool :=
  eye_score == -1 || ears_score == -1 || muzzle_score == -1

/-- Pixel-to-normalized conversion used by every NME computation: x divided
by the image width and y by the image height, independently per axis. -/
noncomputable def normalize_landmarks (L : LandmarkSet) (w h : ℝ) : LandmarkSet :=
  fun i => ((L i).1 / w, (L i).2 / h)

/-- Uniform scaling of a pixel-space landmark set by a factor s. -/
noncomputable def scale_landmarks (s : ℝ) (L : LandmarkSet) : LandmarkSet :=
  fun i => (s * (L i).1, s * (L i).2)

/-- Per-image NME as computed in `evaluate_model` of `inference.py`
(lines 113-132): normalize ground truth, take the inter-ocular distance of
the normalized ground-truth landmarks 8 and 11 floored at 1e-5, normalize
the predictions, average the 48 per-landmark distances, divide by the
inter-ocular distance. -/
noncomputable def nme_inference (pred gt : LandmarkSet) (w h : ℝ) : ℝ :=
  let gt_normalized := normalize_landmarks gt w h
  let eye_dist := max (norm2d (gt_normalized 8 - gt_normalized 11)) 1e-5
  let pred_normalized := normalize_landmarks pred w h
  let errors := fun i : Fin 48 => norm2d (pred_normalized i - gt_normalized i)
  let mean_error := (∑ i, errors i) / 48
  mean_error / eye_dist

/-- Per-image NME as computed in the module-level validation loop of
`validate_on_val_set.py` (lines 76-93): ground truth normalized, then
predictions normalized, then the inter-ocular distance, then the mean of the
48 per-landmark distances divided by it. -/
noncomputable def nme_validate (pred gt : LandmarkSet) (w h : ℝ) : ℝ :=
  let gt_normalized := normalize_landmarks gt w h
  let pred_normalized := normalize_landmarks pred w h
  let eye_dist := max (norm2d (gt_normalized 8 - gt_normalized 11)) 1e-5
  let errors := fun i : Fin 48 => norm2d (pred_normalized i - gt_normalized i)
  let mean_error := (∑ i, errors i) / 48
  mean_error / eye_dist

/-- Per-image NME as computed in `analyze_validation_results` of
`analyze_results.py` (lines 56-73): same normalization, inter-ocular
distance, per-landmark errors and mean as the other two copies. -/
noncomputable def nme_analyze (pred gt : LandmarkSet) (w h : ℝ) : ℝ :=
  let gt_normalized := normalize_landmarks gt w h
  let pred_normalized := normalize_landmarks pred w h
  let eye_dist := max (norm2d (gt_normalized 8 - gt_normalized 11)) 1e-5
  let errors := fun i : Fin 48 => norm2d (pred_normalized i - gt_normalized i)
  let mean_error := (∑ i, errors i) / 48
  mean_error / eye_dist

/-- The NME formula exactly as the spec states it: the mean over all 48
landmarks of the per-landmark Euclidean distance between the normalized
predicted and ground-truth points, each divided by the normalization factor,
the factor being the distance between the ground-truth normalized landmarks
8 and 11 floored at 1e-5. -/
noncomputable def nmeSpecFormula (pred gt : LandmarkSet) (w h : ℝ) : ℝ :=
  let predN := fun i : Fin 48 => ((pred i).1 / w, (pred i).2 / h)
  let gtN := fun i : Fin 48 => ((gt i).1 / w, (gt i).2 / h)
  let factor := max (norm2d (gtN 8 - gtN 11)) 1e-5
  (∑ i, norm2d (predN i - gtN i) / factor) / 48

/-- Insertion of a rational into a sorted list, for the embedding of
`np.sort` inside `np.percentile`. -/
def insertSorted (x : ℚ) : List ℚ → List ℚ
  | [] => [x]
  | y :: ys => if x ≤ y then x :: y :: ys else y :: insertSorted x ys

/-- Insertion sort on rationals, the embedding of `np.sort`. -/
def sortQ : List ℚ → List ℚ
  | [] => []
  | x :: xs => insertSorted x (sortQ xs)

/-- Embedding of `np.percentile` with the default linear interpolation: on
the sorted values, the virtual index is `p / 100 * (n - 1)`; the result
interpolates linearly between the floor neighbour and the next value. -/
def percentile (xs : List ℚ) (p : ℚ) : ℚ :=
  let s := sortQ xs
  let n := s.length
  if n = 0 then 0
  else
    let idx : ℚ := p / 100 * ((n : ℚ) - 1)
    let i : ℕ := (Int.floor idx).toNat
    let lo := s.getD i 0
    let hi := s.getD (i + 1) lo
    lo + (idx - (i : ℚ)) * (hi - lo)

/-- Outlier threshold of `analyze_validation_results` in `analyze_results.py`
(lines 130-133): `q3 + 1.5 * iqr` with `q1`, `q3` the 25th and 75th
percentiles of the batch and `iqr = q3 - q1`. -/
def outlier_threshold (xs : List ℚ) : ℚ :=
  let q1 := percentile xs 25
  let q3 := percentile xs 75
  let iqr := q3 - q1
  q3 + 1.5 * iqr

/-- Outlier flag of `analyze_validation_results` (line 135): an image is kept
as an outlier exactly when its NME strictly exceeds the threshold. -/
def is_outlier (xs : List ℚ) (x : ℚ) : Bool :=
  decide (outlier_threshold xs < x)

/-- The concrete NME batch named by the spec's aggregate outlier test. -/
def nme_batch : List ℚ := [0.1, 0.2, 0.2, 0.3, 5]

/-- A concrete nonzero pixel-space landmark set used to witness the NME
theorems: landmark i sits at (i + 1, 2 * i + 1). -/
noncomputable def sampleGt : LandmarkSet :=
  fun i => ((i : ℝ) + 1, 2 * (i : ℝ) + 1)

/-- A concrete predicted landmark set used to witness the NME theorems:
landmark i sits at (i + 2, 2 * i). -/
noncomputable def samplePred : LandmarkSet :=
  fun i => ((i : ℝ) + 2, 2 * (i : ℝ))

/-- Unfolding of `norm2d` on an explicit difference of pairs. -/
theorem norm2d_sub_mk (x1 y1 x2 y2 : ℝ) :
    norm2d ((x1, y1) - (x2, y2)) = Real.sqrt ((x1 - x2) ^ 2 + (y1 - y2) ^ 2) := rfl

/-- Square-root evaluation at a perfect square. -/
theorem sqrt_eval (a b : ℝ) (hb : 0 ≤ b) (h : b ^ 2 = a) : Real.sqrt a = b := by
  rw [← h]; exact Real.sqrt_sq hb

/-- The source `eyes` is the spec ladder applied to the minimum of the two
per-side eyelid ratios. -/
theorem eyes_eq_ladder (L : LandmarkSet) :
    eyes L = eyesLadder (min (l_ratio L) (r_ratio L)) := rfl

/-- The source `ears` is the spec ladder applied to the minimum and maximum
ear angle and the maximum vertical angle. -/
theorem ears_eq_ladder (L : LandmarkSet) :
    ears L = earsLadder (min (l_ear_angle L) (r_ear_angle L))
      (max (l_ear_angle L) (r_ear_angle L))
      (max (l_vert_angle L) (r_vert_angle L)) := rfl

/-- The source `muzzle` is the spec ladder applied to the maximum of the two
per-side muzzle ratios. -/
theorem muzzle_eq_ladder (L : LandmarkSet) :
    muzzle L = muzzleLadder (max (l_muzzle_ratio L) (r_muzzle_ratio L)) := rfl

/-- Landmark values of the ratio-0.7 boundary set at the eye indices. -/
theorem eyesBoundary07_eval :
    eyesBoundary07 4 = (0, 0) ∧ eyesBoundary07 5 = (10, 0) ∧
    eyesBoundary07 6 = (0, 0) ∧ eyesBoundary07 7 = (0, 7) ∧
    eyesBoundary07 8 = (0, 0) ∧ eyesBoundary07 9 = (10, 0) ∧
    eyesBoundary07 10 = (0, 7) ∧ eyesBoundary07 11 = (0, 0) := by
  unfold eyesBoundary07
  refine ⟨?_, ?_, ?_, ?_, ?_, ?_, ?_, ?_⟩ <;>
    first
      | rw [if_pos (by decide)]
      | rw [if_neg (by decide), if_pos (by decide)]
      | rw [if_neg (by decide), if_neg (by decide)]

/-- Landmark values of the ratio-0.5 boundary set at the eye indices. -/
theorem eyesBoundary05_eval :
    eyesBoundary05 4 = (0, 0) ∧ eyesBoundary05 5 = (10, 0) ∧
    eyesBoundary05 6 = (0, 0) ∧ eyesBoundary05 7 = (0, 5) ∧
    eyesBoundary05 8 = (0, 0) ∧ eyesBoundary05 9 = (10, 0) ∧
    eyesBoundary05 10 = (0, 5) ∧ eyesBoundary05 11 = (0, 0) := by
  unfold eyesBoundary05
  refine ⟨?_, ?_, ?_, ?_, ?_, ?_, ?_, ?_⟩ <;>
    first
      | rw [if_pos (by decide)]
      | rw [if_neg (by decide), if_pos (by decide)]
      | rw [if_neg (by decide), if_neg (by decide)]

/-- Both eyelid ratios of the 0.7 boundary set are exactly 0.7. -/
theorem ratios_B07 : l_ratio eyesBoundary07 = 0.7 ∧ r_ratio eyesBoundary07 = 0.7 := by
  obtain ⟨h4, h5, h6, h7, h8, h9, h10, h11⟩ := eyesBoundary07_eval
  constructor
  · unfold l_ratio
    rw [h10, h11, h9, h8, norm2d_sub_mk, norm2d_sub_mk,
      show ((0 : ℝ) - 0) ^ 2 + ((7 : ℝ) - 0) ^ 2 = 49 by norm_num,
      show ((10 : ℝ) - 0) ^ 2 + ((0 : ℝ) - 0) ^ 2 = 100 by norm_num,
      sqrt_eval 49 7 (by norm_num) (by norm_num),
      sqrt_eval 100 10 (by norm_num) (by norm_num)]
    norm_num
  · unfold r_ratio
    rw [h7, h6, h5, h4, norm2d_sub_mk, norm2d_sub_mk,
      show ((0 : ℝ) - 0) ^ 2 + ((7 : ℝ) - 0) ^ 2 = 49 by norm_num,
      show ((10 : ℝ) - 0) ^ 2 + ((0 : ℝ) - 0) ^ 2 = 100 by norm_num,
      sqrt_eval 49 7 (by norm_num) (by norm_num),
      sqrt_eval 100 10 (by norm_num) (by norm_num)]
    norm_num

/-- Both eyelid ratios of the 0.5 boundary set are exactly 0.5. -/
theorem ratios_B05 : l_ratio eyesBoundary05 = 0.5 ∧ r_ratio eyesBoundary05 = 0.5 := by
  obtain ⟨h4, h5, h6, h7, h8, h9, h10, h11⟩ := eyesBoundary05_eval
  constructor
  · unfold l_ratio
    rw [h10, h11, h9, h8, norm2d_sub_mk, norm2d_sub_mk,
      show ((0 : ℝ) - 0) ^ 2 + ((5 : ℝ) - 0) ^ 2 = 25 by norm_num,
      show ((10 : ℝ) - 0) ^ 2 + ((0 : ℝ) - 0) ^ 2 = 100 by norm_num,
      sqrt_eval 25 5 (by norm_num) (by norm_num),
      sqrt_eval 100 10 (by norm_num) (by norm_num)]
    norm_num
  · unfold r_ratio
    rw [h7, h6, h5, h4, norm2d_sub_mk, norm2d_sub_mk,
      show ((0 : ℝ) - 0) ^ 2 + ((5 : ℝ) - 0) ^ 2 = 25 by norm_num,
      show ((10 : ℝ) - 0) ^ 2 + ((0 : ℝ) - 0) ^ 2 = 100 by norm_num,
      sqrt_eval 25 5 (by norm_num) (by norm_num),
      sqrt_eval 100 10 (by norm_num) (by norm_num)]
    norm_num

/-- C1: the eyes classifier is the spec ladder (minimum over the two
per-side vertical/horizontal eyelid ratios, then -1 above 1.0, 0 above 0.7,
1 at or above 0.5, else 2), and on landmark sets realising a minimum ratio
of exactly 0.7 and exactly 0.5 it returns 1. -/
theorem eyes_ladder_correct :
    (∀ L : LandmarkSet, eyes L = eyesLadder (min (l_ratio L) (r_ratio L))) ∧
    min (l_ratio eyesBoundary07) (r_ratio eyesBoundary07) = 0.7 ∧
    eyes eyesBoundary07 = 1 ∧
    min (l_ratio eyesBoundary05) (r_ratio eyesBoundary05) = 0.5 ∧
    eyes eyesBoundary05 = 1 := by
  obtain ⟨l7, r7⟩ := ratios_B07
  obtain ⟨l5, r5⟩ := ratios_B05
  refine ⟨fun L => eyes_eq_ladder L, ?_, ?_, ?_, ?_⟩
  · rw [l7, r7, min_self]
  · rw [eyes_eq_ladder, l7, r7, min_self]
    unfold eyesLadder
    rw [if_neg (by norm_num), if_neg (by norm_num), if_pos (by norm_num)]
  · rw [l5, r5, min_self]
  · rw [eyes_eq_ladder, l5, r5, min_self]
    unfold eyesLadder
    rw [if_neg (by norm_num), if_neg (by norm_num), if_pos (by norm_num)]

/-- C2: the ears classifier evaluates the spec threshold ladder in the
literal listed order on the minimum ear angle, the maximum ear angle and the
maximum vertical angle computed from the fixed landmark indices. -/
theorem ears_ladder_correct (L : LandmarkSet) :
    ears L = earsLadder (min (l_ear_angle L) (r_ear_angle L))
      (max (l_ear_angle L) (r_ear_angle L))
      (max (l_vert_angle L) (r_vert_angle L)) :=
  ears_eq_ladder L

/-- C3: the muzzle classifier is the spec ladder (maximum over the two
per-side width/height ratios, then 2 above 2.0, else 1 above 1.5, else -1
below 0.8, else 0). -/
theorem muzzle_ladder_correct (L : LandmarkSet) :
    muzzle L = muzzleLadder (max (l_muzzle_ratio L) (r_muzzle_ratio L)) :=
  muzzle_eq_ladder L

/-- C4: the NME of `evaluate_model` equals the spec formula: per-axis
normalization by width and height, normalization factor the distance of the
ground-truth normalized landmarks 8 and 11 floored at 1e-5, and NME the mean
over all 48 landmarks of the per-landmark normalized distance divided by
that factor. -/
theorem nme_matches_spec (pred gt : LandmarkSet) (w h : ℝ)
    (hw : 0 < w) (hh : 0 < h) :
    nme_inference pred gt w h = nmeSpecFormula pred gt w h := by
  simp only [nme_inference, nmeSpecFormula, normalize_landmarks]
  rw [← Finset.sum_div]
  exact div_right_comm _ _ _

/-- Witness for C4 at sample landmark sets and unit image dimensions. -/
theorem nme_matches_spec_witness :
    (0 : ℝ) < 1 ∧
    nme_inference samplePred sampleGt 1 1 = nmeSpecFormula samplePred sampleGt 1 1 :=
  ⟨by norm_num, nme_matches_spec samplePred sampleGt 1 1 (by norm_num) (by norm_num)⟩

/-- C5: the aggregator of `calculate_pain_score` raises the generic error
marker exactly when one of the three sub-scores is the sentinel -1. -/
theorem pain_error_flag_iff (L : LandmarkSet) :
    pain_error_flag (eyes L) (ears L) (muzzle L) = true ↔
      eyes L = -1 ∨ ears L = -1 ∨ muzzle L = -1 := by
  simp [pain_error_flag, or_assoc]

/-- C6 counterexample: on the fully degenerate landmark set every eyelid
distance is zero (coincident landmark pairs, undefined ratios), yet `eyes`
returns 2, not the sentinel -1. -/
theorem eyes_degenerate_not_sentinel :
    norm2d (degenerateLandmarks 9 - degenerateLandmarks 8) = 0 ∧
    eyes degenerateLandmarks = 2 := by
  have hl : l_ratio degenerateLandmarks = 0 := by
    unfold l_ratio degenerateLandmarks
    rw [norm2d_sub_mk]
    norm_num
  have hr : r_ratio degenerateLandmarks = 0 := by
    unfold r_ratio degenerateLandmarks
    rw [norm2d_sub_mk]
    norm_num
  constructor
  · unfold degenerateLandmarks
    rw [norm2d_sub_mk]
    norm_num
  · rw [eyes_eq_ladder, hl, hr, min_self]
    unfold eyesLadder
    rw [if_neg (by norm_num), if_neg (by norm_num), if_neg (by norm_num)]

/-- C6 (amended): the three classifiers are total over landmark sets and
always return a value in the range -1, 0, 1, 2; degenerate geometry never
throws but may be reported by a score other than the sentinel -1. -/
theorem classifiers_total_range (L : LandmarkSet) :
    (eyes L = -1 ∨ eyes L = 0 ∨ eyes L = 1 ∨ eyes L = 2) ∧
    (ears L = -1 ∨ ears L = 0 ∨ ears L = 1 ∨ ears L = 2) ∧
    (muzzle L = -1 ∨ muzzle L = 0 ∨ muzzle L = 1 ∨ muzzle L = 2) := by
  refine ⟨?_, ?_, ?_⟩
  · rw [eyes_eq_ladder]; unfold eyesLadder; split_ifs <;> simp
  · rw [ears_eq_ladder]; unfold earsLadder; split_ifs <;> simp
  · rw [muzzle_eq_ladder]; unfold muzzleLadder; split_ifs <;> simp

/-- Scaling both the landmarks and the image dimensions by a nonzero factor
leaves the normalized landmarks unchanged. -/
theorem normalize_scale (s : ℝ) (hs : s ≠ 0) (L : LandmarkSet) (w h : ℝ) :
    normalize_landmarks (scale_landmarks s L) (s * w) (s * h)
      = normalize_landmarks L w h := by
  funext i
  unfold normalize_landmarks scale_landmarks
  simp only [Prod.mk.injEq]
  exact ⟨mul_div_mul_left _ _ hs, mul_div_mul_left _ _ hs⟩

/-- C8: NME is scale-invariant: scaling predicted and ground-truth landmark
sets and the image width and height by the same positive factor leaves the
NME unchanged. -/
theorem nme_scale_invariant (pred gt : LandmarkSet) (w h s : ℝ)
    (hs : 0 < s) (hw : 0 < w) (hh : 0 < h) :
    nme_inference (scale_landmarks s pred) (scale_landmarks s gt) (s * w) (s * h)
      = nme_inference pred gt w h := by
  simp only [nme_inference]
  rw [normalize_scale s hs.ne' pred w h, normalize_scale s hs.ne' gt w h]

/-- Witness for C8 at scale factor 2, sample landmark sets and unit image
dimensions. -/
theorem nme_scale_invariant_witness :
    (0 : ℝ) < 2 ∧
    nme_inference (scale_landmarks 2 samplePred) (scale_landmarks 2 sampleGt)
      (2 * 1) (2 * 1) = nme_inference samplePred sampleGt 1 1 :=
  ⟨by norm_num,
    nme_scale_invariant samplePred sampleGt 1 1 2 (by norm_num) (by norm_num) (by norm_num)⟩

/-- Sorting the spec batch of NME values. -/
theorem sortQ_batch : sortQ nme_batch = [0.1, 0.2, 0.2, 0.3, 5] := by
  norm_num [nme_batch, sortQ, insertSorted]

/-- The 25th percentile of the spec batch is 0.2. -/
theorem percentile25_batch : percentile nme_batch 25 = 0.2 := by
  norm_num [percentile, sortQ_batch, List.getD, show Int.toNat 1 = 1 from rfl]

/-- The 75th percentile of the spec batch is 0.3. -/
theorem percentile75_batch : percentile nme_batch 75 = 0.3 := by
  norm_num [percentile, sortQ_batch, List.getD, show Int.toNat 3 = 3 from rfl]

/-- The IQR outlier threshold of the spec batch is 0.45. -/
theorem threshold_batch : outlier_threshold nme_batch = 0.45 := by
  norm_num [outlier_threshold, percentile25_batch, percentile75_batch]

/-- Exactly the value 5 of the spec batch is flagged as an outlier. -/
theorem filter_batch :
    nme_batch.filter (fun x => is_outlier nme_batch x) = [5] := by
  simp only [is_outlier, threshold_batch]
  norm_num [nme_batch, List.filter]

/-- C9: an image is flagged as an outlier exactly when its NME strictly
exceeds Q3 plus 1.5 times the interquartile range, and on the batch
0.1, 0.2, 0.2, 0.3, 5 the quartiles are 0.2 and 0.3, the threshold is 0.45
and exactly the value 5 is flagged. -/
theorem outlier_iqr_rule :
    (∀ (xs : List ℚ) (x : ℚ), is_outlier xs x = true ↔
      percentile xs 75 + 1.5 * (percentile xs 75 - percentile xs 25) < x) ∧
    percentile nme_batch 25 = 0.2 ∧
    percentile nme_batch 75 = 0.3 ∧
    outlier_threshold nme_batch = 0.45 ∧
    nme_batch.filter (fun x => is_outlier nme_batch x) = [5] := by
  refine ⟨?_, percentile25_batch, percentile75_batch, threshold_batch, filter_batch⟩
  intro xs x
  simp [is_outlier, outlier_threshold]

/-- C10: the three independently written NME computations of `inference.py`,
`validate_on_val_set.py` and `analyze_results.py` agree on every input. -/
theorem nme_implementations_agree (pred gt : LandmarkSet) (w h : ℝ) :
    nme_inference pred gt w h = nme_validate pred gt w h ∧
    nme_validate pred gt w h = nme_analyze pred gt w h :=
  ⟨rfl, rfl⟩

end Cats
